import Mathlib

set_option linter.unusedVariables false

/-!
Shallow embedding of the MEWallet backend's balance-link ledger and
request-workflow engine (FastAPI + Supabase, `src/backend/`), together with
proofs about the claims of the specification.

Conventions of the embedding:
* The Supabase database is a pure record of lists of rows (`DB`); a query
  `select ... .eq(...)` taking `data[0]` becomes `List.find?`, an insert is an
  append, an `update ... .eq(...)` maps over the rows, a `delete` filters.
* Monetary amounts are embedded as `Int` (the handlers only add, subtract and
  compare amounts; no float-specific behaviour is exercised by the claims).
* A handler is a pure function `... → Except ApiError result`.  Every `raise
  HTTPException` in the source occurs before any database write on that path,
  so an `Except.error` result models "the handler failed and the database is
  unchanged".  Handlers that do write return the updated `DB`.
* `datetime.utcnow()` is passed in as an explicit `now : Nat` argument.
* WebSocket payload dictionaries are elided; a fanout message is embedded as
  its event-name string, which is all the claims inspect.
-/

namespace MEWallet

/-- Modelled from the spec: the Credential Vault (§4.1, backed by the external
passlib/bcrypt library, which is not part of `src/`) is an opaque one-way
transform with `verify(secret, hash(secret)) = true`.  The embedding uses an
injective tagging function; all that the proofs use is that `verify_password p
h` holds exactly when `h` is the digest of `p`, and that a digest is never
equal to the plaintext it came from. -/
def hash_password (p : String) : String := "$2b$12$" ++ p

/-- Modelled from the spec: bcrypt verification (see `hash_password`). -/
def verify_password (plain hashed : String) : Bool := hashed == hash_password plain

/-- The error half of an HTTPException: the status class plus the detail
string. -/
inductive ApiError where
  | notFound (detail : String)
  | badRequest (detail : String)
  | unauthorized (detail : String)
  | forbidden (detail : String)
  | internal (detail : String)
  deriving DecidableEq, Repr

/-- The HTTP status code carried by each `ApiError`. -/
def ApiError.statusCode : ApiError → Nat
  | .notFound _ => 404
  | .badRequest _ => 400
  | .unauthorized _ => 401
  | .forbidden _ => 403
  | .internal _ => 500

/-- A row of the `merchant_user_links` table.  `pin` holds what the code
stores in the `"pin"` column (a bcrypt digest on the `create_link` and
link-request paths).  `pin_hash` is the separate `"pin_hash"` column read by
`accept_pay_request`; no handler in `src/` writes it, so it is `none` on rows
created by the embedded handlers.  `status`, `store_name` and `user_name` are
further columns read by the pay-request handlers. -/
structure Link where
  id : Nat
  merchant_id : String
  user_id : String
  pin : String
  pin_hash : Option String
  balance : Int
  status : String
  store_name : Option String
  user_name : Option String
  deriving DecidableEq, Repr

/-- A row of the `transactions` table.  `balance_after` and `store_name` are
optional because different handlers include different columns in the insert
payload. -/
structure Txn where
  merchant_id : String
  user_id : String
  amount : Int
  transaction_type : String
  balance_after : Option Int
  store_name : Option String
  deriving DecidableEq, Repr

/-- A row of the `balance_requests` table.  Note that `create_balance_request`
stores the caller-supplied PIN verbatim in the `pin` column. -/
structure BalReq where
  id : Nat
  merchant_id : String
  user_id : String
  amount : Int
  pin : String
  status : String
  deriving DecidableEq, Repr

/-- A row of the `link_requests` table (again the request's `pin` column holds
the plaintext proposal; it is hashed only when the link is created). -/
structure LinkReq where
  id : Nat
  merchant_id : String
  user_id : String
  pin : String
  status : String
  deriving DecidableEq, Repr

/-- A row of the `pay_requests` table. -/
structure PayReq where
  id : Nat
  merchant_id : String
  user_id : String
  amount : Int
  description : Option String
  status : String
  responded_at : Option Nat
  deriving DecidableEq, Repr

/-- The database: one list of rows per table touched by the embedded
handlers, plus a surrogate-id counter shared by all inserts (ids are
monotonic, which is all the code relies on).  `merchants` and `users` are the
id columns of the corresponding tables (the only part the handlers read). -/
structure DB where
  merchants : List String
  users : List String
  links : List Link
  transactions : List Txn
  balance_requests : List BalReq
  link_requests : List LinkReq
  pay_requests : List PayReq
  next_id : Nat
  deriving DecidableEq, Repr

/-- `select * from merchant_user_links where merchant_id = mid and user_id =
uid`, taking `data[0]`. -/
def findLink (db : DB) (mid uid : String) : Option Link :=
  db.links.find? (fun l => l.merchant_id == mid && l.user_id == uid)

/-- The same query with the additional `.eq("status", "active")` filter used
by `create_pay_request`. -/
def findActiveLink (db : DB) (mid uid : String) : Option Link :=
  db.links.find? (fun l => l.merchant_id == mid && l.user_id == uid && l.status == "active")

/-- Modelled from the spec: the database schema (not under `src/`) supplies
the column defaults for link rows whose insert payload omits them; the spec's
data model (§3) has no inactive links, so a freshly inserted link is active. -/
def dbDefaultLinkStatus : String := "active"

/-- The verified payload of a bearer token: `{sub, user_type}`. -/
structure AuthPayload where
  sub : String
  user_type : String
  deriving DecidableEq, Repr

/-- The `Authorization` header as the handler sees it after the (external) JWT
verification: `none` = header missing, `some none` = header present but the
token does not verify, `some (some p)` = token verifies with payload `p`. -/
abbrev AuthHeader := Option (Option AuthPayload)

/-- `middleware/auth_middleware.py::get_current_user`: a missing header, a
malformed header and an invalid token all yield HTTP 401; a valid token yields
its payload. -/
def get_current_user : AuthHeader → Except ApiError AuthPayload
  | none => .error (.unauthorized "Authorization header missing")
  | some none => .error (.unauthorized "Invalid or expired token")
  | some (some p) => .ok p

/-! ## `transaction_routes.py` (direct link ledger endpoints)

None of these handlers declares an `Authorization` dependency; the `_auth`
argument models the header an HTTP caller may send, which the handler
ignores. -/

/-- `POST /link/create` (`transaction_routes.py::create_link`). Returns the
updated database and the new link's id. -/
def create_link (db : DB) (mid uid pin : String) : Except ApiError (DB × Nat) := do
  if !(db.merchants.contains mid) then
    throw (.notFound "Merchant not found")
  if !(db.users.contains uid) then
    throw (.notFound "User not found")
  if (findLink db mid uid).isSome then
    throw (.badRequest "Link already exists between this merchant and user")
  let hashed_pin := hash_password pin
  let link : Link :=
    { id := db.next_id, merchant_id := mid, user_id := uid, pin := hashed_pin,
      pin_hash := none, balance := 0, status := dbDefaultLinkStatus,
      store_name := none, user_name := none }
  pure ({ db with links := db.links ++ [link], next_id := db.next_id + 1 }, db.next_id)

/-- `POST /link/delink` (`transaction_routes.py::delink_merchant`).  The
`ProcessTransaction` body also carries an `amount` field the handler never
reads (`_amount`). -/
def delink_merchant (db : DB) (_auth : AuthHeader) (mid uid : String) (_amount : Int)
    (pin : String) : Except ApiError DB := do
  match findLink db mid uid with
  | none => throw (.notFound "No link found between this merchant and user")
  | some link_record =>
    if !(verify_password pin link_record.pin) then
      throw (.unauthorized "Invalid PIN")
    pure { db with links := db.links.filter (fun l => l.id != link_record.id) }

/-- `POST /link/add-balance` (`transaction_routes.py::add_balance`).  Returns
the updated database and the new balance. -/
def add_balance (db : DB) (_auth : AuthHeader) (mid uid : String) (amount : Int)
    (pin : String) : Except ApiError (DB × Int) := do
  match findLink db mid uid with
  | none => throw (.notFound "No link found between this merchant and user")
  | some link_data =>
    if !(verify_password pin link_data.pin) then
      throw (.unauthorized "Invalid PIN")
    let new_balance := link_data.balance + amount
    let links := db.links.map (fun l => if l.id == link_data.id then { l with balance := new_balance } else l)
    let txn : Txn :=
      { merchant_id := mid, user_id := uid, amount := amount,
        transaction_type := "credit", balance_after := some new_balance, store_name := none }
    pure ({ db with links := links, transactions := db.transactions ++ [txn] }, new_balance)

/-- `POST /link/purchase` (`transaction_routes.py::process_purchase`). -/
def process_purchase (db : DB) (_auth : AuthHeader) (mid uid : String) (amount : Int)
    (pin : String) : Except ApiError (DB × Int) := do
  match findLink db mid uid with
  | none => throw (.notFound "No link found between this merchant and user")
  | some link_data =>
    if !(verify_password pin link_data.pin) then
      throw (.unauthorized "Invalid PIN")
    if link_data.balance < amount then
      throw (.badRequest "Insufficient balance")
    let new_balance := link_data.balance - amount
    let links := db.links.map (fun l => if l.id == link_data.id then { l with balance := new_balance } else l)
    let txn : Txn :=
      { merchant_id := mid, user_id := uid, amount := amount,
        transaction_type := "debit", balance_after := some new_balance, store_name := none }
    pure ({ db with links := links, transactions := db.transactions ++ [txn] }, new_balance)

/-- `GET /link/balance/{merchant_id}/{user_id}`
(`transaction_routes.py::get_balance`). -/
def get_balance (db : DB) (mid uid : String) : Except ApiError Int :=
  match findLink db mid uid with
  | none => .error (.notFound "No link found between this merchant and user")
  | some link => .ok link.balance

/-- `GET /link/transactions/{merchant_id}/{user_id}` restricted to the row
filter (the ordering/limit projection is irrelevant to the claims): the
transaction rows of one (merchant, user) pair, in insertion order. -/
def txnsFor (db : DB) (mid uid : String) : List Txn :=
  db.transactions.filter (fun t => t.merchant_id == mid && t.user_id == uid)

/-! ## `core/websocket_manager.py` (notification fanout)

A live outbound channel is identified by a `Nat` id; its `ok` field records
whether `send_json` on it succeeds during the send under consideration (the
external network outcome).  The two dictionaries of the Python
`ConnectionManager` become association lists with unique keys. -/

/-- One WebSocket channel, with the outcome its next `send_json` would have. -/
structure WebSocket where
  id : Nat
  ok : Bool
  deriving DecidableEq, Repr

/-- One of the manager's dictionaries: identity id → list of channels. -/
abbrev Conns := List (String × List WebSocket)

/-- Dictionary lookup (`d[k]` / `k in d`). -/
def lookupConns (e : Conns) (k : String) : Option (List WebSocket) :=
  (e.find? (fun kv => kv.1 == k)).map (fun kv => kv.2)

/-- Replace the value stored at a present key (in-place mutation of `d[k]`). -/
def setConns : Conns → String → List WebSocket → Conns
  | [], _, _ => []
  | kv :: rest, k, v => if kv.1 == k then (k, v) :: rest else kv :: setConns rest k v

/-- `list.remove(websocket)`: remove the first channel with the given id, or
report `none` when absent (Python raises `ValueError` there). -/
def removeFirstById : List WebSocket → Nat → Option (List WebSocket)
  | [], _ => none
  | w :: rest, wid =>
    if w.id == wid then some rest else (removeFirstById rest wid).map (fun ws => w :: ws)

/-- The body of `ConnectionManager.disconnect` for one of the two
dictionaries: if the key is present, remove the channel from its list and
delete the key when the list becomes empty.  An absent key, or an absent
channel (where `remove` raises and the `try/except` swallows it), leaves the
dictionary unchanged. -/
def dropConn (e : Conns) (k : String) (wid : Nat) : Conns :=
  match lookupConns e k with
  | none => e
  | some chs =>
    match removeFirstById chs wid with
    | none => e
    | some chs2 => if chs2.isEmpty then e.filter (fun kv => kv.1 != k) else setConns e k chs2

/-- `ConnectionManager`: per-identity channel sets for users and merchants. -/
structure ConnectionManager where
  user_connections : Conns
  merchant_connections : Conns
  deriving DecidableEq, Repr

/-- `ConnectionManager.connect` on one dictionary: create the key if needed
and append the channel. -/
def addConn (e : Conns) (k : String) (ws : WebSocket) : Conns :=
  match lookupConns e k with
  | none => e ++ [(k, [ws])]
  | some chs => setConns e k (chs ++ [ws])

/-- `ConnectionManager.connect` (the `websocket.accept()` handshake is
external). -/
def ConnectionManager.connect (m : ConnectionManager) (ws : WebSocket) (uid user_type : String) :
    ConnectionManager :=
  if user_type == "user" then { m with user_connections := addConn m.user_connections uid ws }
  else { m with merchant_connections := addConn m.merchant_connections uid ws }

/-- `ConnectionManager.disconnect`. -/
def ConnectionManager.disconnect (m : ConnectionManager) (ws : WebSocket) (uid user_type : String) :
    ConnectionManager :=
  if user_type == "user" then { m with user_connections := dropConn m.user_connections uid ws.id }
  else { m with merchant_connections := dropConn m.merchant_connections uid ws.id }

/-- The shared body of `send_to_user` and `send_to_merchant` (the two are
textually identical in the source up to which dictionary they touch): deliver
to every channel of the identity, collecting the channels whose send failed,
then disconnect each failed channel.  Returns the updated dictionary and the
list of (channel id, message) deliveries that succeeded. -/
def sendCore (e : Conns) (k : String) (msg : String) : Conns × List (Nat × String) :=
  match lookupConns e k with
  | none => (e, [])
  | some chs =>
    let delivered := (chs.filter (fun w => w.ok)).map (fun w => (w.id, msg))
    let disconnected := chs.filter (fun w => !w.ok)
    (disconnected.foldl (fun acc w => dropConn acc k w.id) e, delivered)

/-- `ConnectionManager.send_to_user`. -/
def send_to_user (m : ConnectionManager) (uid : String) (msg : String) :
    ConnectionManager × List (Nat × String) :=
  let r := sendCore m.user_connections uid msg
  ({ m with user_connections := r.1 }, r.2)

/-- `ConnectionManager.send_to_merchant`. -/
def send_to_merchant (m : ConnectionManager) (mid : String) (msg : String) :
    ConnectionManager × List (Nat × String) :=
  let r := sendCore m.merchant_connections mid msg
  ({ m with merchant_connections := r.1 }, r.2)

/-- `ConnectionManager.is_user_connected`. -/
def is_user_connected (m : ConnectionManager) (uid : String) : Bool :=
  match lookupConns m.user_connections uid with
  | none => false
  | some chs => decide (0 < chs.length)

/-- `ConnectionManager.is_merchant_connected`. -/
def is_merchant_connected (m : ConnectionManager) (mid : String) : Bool :=
  match lookupConns m.merchant_connections mid with
  | none => false
  | some chs => decide (0 < chs.length)

/-- `broadcast_payment_to_merchant`: a send with event `payment_received`
(the data payload is elided, see the header comment). -/
def broadcast_payment_to_merchant (m : ConnectionManager) (mid : String) :
    ConnectionManager × List (Nat × String) :=
  send_to_merchant m mid "payment_received"

/-- `broadcast_payment_request_to_user`: a send with event
`payment_requested`. -/
def broadcast_payment_request_to_user (m : ConnectionManager) (uid : String) :
    ConnectionManager × List (Nat × String) :=
  send_to_user m uid "payment_requested"

/-! ## `balance_request_routes.py`

These handlers declare no `Authorization` dependency either; `_auth` is the
ignored header.  The 10-second deferred deletion of resolved rows
(`delete_request_after_delay`, scheduled through `BackgroundTasks`) runs after
the response and outside the handler's state transition, so it is not part of
these functions. -/

/-- `POST /balance-requests/create`
(`balance_request_routes.py::create_balance_request`).  Note that the insert
stores the caller-supplied `pin` verbatim. -/
def create_balance_request (db : DB) (mid uid : String) (amount : Int) (pin : String) :
    Except ApiError (DB × Nat) := do
  if !(db.merchants.contains mid) then
    throw (.notFound "Merchant not found")
  if !(db.users.contains uid) then
    throw (.notFound "User not found")
  if db.balance_requests.any (fun r => r.merchant_id == mid && r.user_id == uid && r.status == "pending") then
    throw (.badRequest "You already have a pending request with this merchant")
  let req : BalReq :=
    { id := db.next_id, merchant_id := mid, user_id := uid, amount := amount,
      pin := pin, status := "pending" }
  pure ({ db with balance_requests := db.balance_requests ++ [req], next_id := db.next_id + 1 },
    db.next_id)

/-- `POST /balance-requests/accept/{request_id}`
(`balance_request_routes.py::accept_balance_request`).  When no link exists
yet, the new link row's `pin` column receives `req_data["pin"]` — the
plaintext stored at request creation — with no hashing.  Returns the updated
database and the credited amount. -/
def accept_balance_request (db : DB) (_auth : AuthHeader) (request_id : Nat) :
    Except ApiError (DB × Int) := do
  match db.balance_requests.find? (fun r => r.id == request_id) with
  | none => throw (.notFound "Request not found")
  | some req_data =>
    if req_data.status != "pending" then
      throw (.badRequest "Request has already been processed")
    let upd : DB × Int :=
      match findLink db req_data.merchant_id req_data.user_id with
      | some link_data =>
        let new_balance := link_data.balance + req_data.amount
        ({ db with links := db.links.map (fun l =>
            if l.id == link_data.id then { l with balance := new_balance } else l) },
          new_balance)
      | none =>
        let new_balance := req_data.amount
        ({ db with
            links := db.links ++ [{
              id := db.next_id, merchant_id := req_data.merchant_id,
              user_id := req_data.user_id, pin := req_data.pin, pin_hash := none,
              balance := new_balance, status := dbDefaultLinkStatus,
              store_name := none, user_name := none }],
            next_id := db.next_id + 1 },
          new_balance)
    let db1 := upd.1
    let txn : Txn :=
      { merchant_id := req_data.merchant_id, user_id := req_data.user_id,
        amount := req_data.amount, transaction_type := "credit",
        balance_after := some upd.2, store_name := none }
    let db2 := { db1 with
      transactions := db1.transactions ++ [txn],
      balance_requests := db1.balance_requests.map (fun r =>
        if r.id == request_id then { r with status := "accepted" } else r) }
    pure (db2, req_data.amount)

/-- `POST /balance-requests/reject/{request_id}`
(`balance_request_routes.py::reject_balance_request`). -/
def reject_balance_request (db : DB) (_auth : AuthHeader) (request_id : Nat) :
    Except ApiError DB := do
  match db.balance_requests.find? (fun r => r.id == request_id) with
  | none => throw (.notFound "Request not found")
  | some req_data =>
    if req_data.status != "pending" then
      throw (.badRequest "Request has already been processed")
    pure { db with balance_requests := db.balance_requests.map (fun r =>
      if r.id == request_id then { r with status := "rejected" } else r) }

/-! ## `routes/link_request_routes.py`

These handlers depend on `get_current_user`, which only validates the token;
none of them compares the token's `sub` with the request's parties.  The
SlowAPI rate-limit decorators are HTTP-layer glue and are elided. -/

/-- `POST /link-requests/create`
(`routes/link_request_routes.py::create_link_request`). -/
def create_link_request (db : DB) (auth : AuthHeader) (mid uid pin : String) :
    Except ApiError (DB × Nat) := do
  let _current_user ← get_current_user auth
  if !(db.merchants.contains mid) then
    throw (.notFound "Merchant not found")
  if !(db.users.contains uid) then
    throw (.notFound "User not found")
  if (findLink db mid uid).isSome then
    throw (.badRequest "You are already linked with this merchant")
  if db.link_requests.any (fun r => r.merchant_id == mid && r.user_id == uid && r.status == "pending") then
    throw (.badRequest "You already have a pending link request with this merchant")
  let req : LinkReq :=
    { id := db.next_id, merchant_id := mid, user_id := uid, pin := pin, status := "pending" }
  pure ({ db with link_requests := db.link_requests ++ [req], next_id := db.next_id + 1 },
    db.next_id)

/-- `POST /link-requests/accept/{request_id}`
(`routes/link_request_routes.py::accept_link_request`).  If a link already
exists for the pair (race check), the request is still marked accepted and no
duplicate link is created; otherwise a link with balance 0 and the hashed
request PIN is inserted. -/
def accept_link_request (db : DB) (auth : AuthHeader) (request_id : Nat) :
    Except ApiError DB := do
  let _current_user ← get_current_user auth
  match db.link_requests.find? (fun r => r.id == request_id) with
  | none => throw (.notFound "Request not found")
  | some req_data =>
    if req_data.status != "pending" then
      throw (.badRequest "Request has already been processed")
    let accepted := db.link_requests.map (fun r =>
      if r.id == request_id then { r with status := "accepted" } else r)
    if (findLink db req_data.merchant_id req_data.user_id).isSome then
      pure { db with link_requests := accepted }
    else
      pure { db with
        links := db.links ++ [{
          id := db.next_id, merchant_id := req_data.merchant_id,
          user_id := req_data.user_id, pin := hash_password req_data.pin,
          pin_hash := none, balance := 0, status := dbDefaultLinkStatus,
          store_name := none, user_name := none }],
        link_requests := accepted,
        next_id := db.next_id + 1 }

/-- `POST /link-requests/reject/{request_id}`
(`routes/link_request_routes.py::reject_link_request`). -/
def reject_link_request (db : DB) (auth : AuthHeader) (request_id : Nat) :
    Except ApiError DB := do
  let _current_user ← get_current_user auth
  match db.link_requests.find? (fun r => r.id == request_id) with
  | none => throw (.notFound "Request not found")
  | some req_data =>
    if req_data.status != "pending" then
      throw (.badRequest "Request has already been processed")
    pure { db with link_requests := db.link_requests.map (fun r =>
      if r.id == request_id then { r with status := "rejected" } else r) }

/-! ## `routes/pay_request_routes.py`

These handlers read the `Authorization` header inline: a missing header is
HTTP 401; a token that fails verification is HTTP 403.  They also touch the
global `ConnectionManager`, so they take and return it. -/

/-- The guard `if not user_data or user_data.get("sub") != resource_id` of
`create_pay_request`. -/
def paySubGuard (user_data : Option AuthPayload) (resource_id : String) : Bool :=
  match user_data with
  | none => true
  | some p => p.sub != resource_id

/-- `POST /pay-requests/create` (`routes/pay_request_routes.py::create_pay_request`).
Note: there is no check for an already-pending pay request of the pair.
Returns the updated database and manager, the deliveries of the
`payment_requested` broadcast (empty when the user is not connected) and the
new request id. -/
def create_pay_request (db : DB) (cm : ConnectionManager) (auth : AuthHeader)
    (mid uid : String) (amount : Int) (description : Option String) :
    Except ApiError (DB × ConnectionManager × List (Nat × String) × Nat) := do
  match auth with
  | none => throw (.unauthorized "Authorization header missing")
  | some user_data =>
    if paySubGuard user_data mid then
      throw (.forbidden "Unauthorized")
    if amount ≤ 0 then
      throw (.badRequest "Amount must be positive")
    match findActiveLink db mid uid with
    | none => throw (.notFound "Link not found or inactive")
    | some link =>
      if link.balance < amount then
        throw (.badRequest "Insufficient balance")
      let req : PayReq :=
        { id := db.next_id, merchant_id := mid, user_id := uid, amount := amount,
          description := description, status := "pending", responded_at := none }
      let db1 := { db with pay_requests := db.pay_requests ++ [req], next_id := db.next_id + 1 }
      if is_user_connected cm uid then
        let r := broadcast_payment_request_to_user cm uid
        pure (db1, r.1, r.2, db.next_id)
      else
        pure (db1, cm, [], db.next_id)

/-- `POST /pay-requests/accept` (`routes/pay_request_routes.py::accept_pay_request`).
The PIN is verified against the link's `pin_hash` column (a NULL there makes
`None.encode` raise, which the generic handler maps to HTTP 500).  On success
the link keyed by the (merchant, user) pair is debited, the request becomes
`accepted` with `responded_at` set, a `purchase` transaction row is inserted
— with `store_name` but without a `balance_after` column — and
`payment_received` is broadcast to the merchant when connected.  Returns the
updated database and manager, the deliveries of the broadcast and the new
balance. -/
def accept_pay_request (db : DB) (cm : ConnectionManager) (auth : AuthHeader)
    (request_id : Nat) (pin : String) (now : Nat) :
    Except ApiError (DB × ConnectionManager × List (Nat × String) × Int) := do
  match auth with
  | none => throw (.unauthorized "Authorization header missing")
  | some user_data =>
    match user_data with
    | none => throw (.forbidden "Unauthorized")
    | some p =>
      match db.pay_requests.find? (fun r => r.id == request_id) with
      | none => throw (.notFound "Pay request not found")
      | some pay_req =>
        if pay_req.user_id != p.sub then
          throw (.forbidden "Unauthorized")
        if pay_req.status != "pending" then
          throw (.badRequest ("Request already " ++ pay_req.status))
        match findLink db pay_req.merchant_id pay_req.user_id with
        | none => throw (.notFound "Link not found")
        | some link =>
          match link.pin_hash with
          | none => throw (.internal "pin_hash is NULL")
          | some ph =>
            if !(verify_password pin ph) then
              throw (.unauthorized "Invalid PIN")
            if link.balance < pay_req.amount then
              throw (.badRequest "Insufficient balance")
            let new_balance := link.balance - pay_req.amount
            let links := db.links.map (fun l =>
              if l.merchant_id == pay_req.merchant_id && l.user_id == pay_req.user_id then
                { l with balance := new_balance } else l)
            let pay_requests := db.pay_requests.map (fun r =>
              if r.id == request_id then
                { r with status := "accepted", responded_at := some now } else r)
            let txn : Txn :=
              { merchant_id := pay_req.merchant_id, user_id := pay_req.user_id,
                amount := pay_req.amount, transaction_type := "purchase",
                balance_after := none, store_name := link.store_name }
            let db1 := { db with
              links := links
              pay_requests := pay_requests
              transactions := db.transactions ++ [txn] }
            if is_merchant_connected cm pay_req.merchant_id then
              let r := broadcast_payment_to_merchant cm pay_req.merchant_id
              pure (db1, r.1, r.2, new_balance)
            else
              pure (db1, cm, [], new_balance)

/-- `POST /pay-requests/reject/{request_id}`
(`routes/pay_request_routes.py::reject_pay_request`). -/
def reject_pay_request (db : DB) (auth : AuthHeader) (request_id : Nat) (now : Nat) :
    Except ApiError DB := do
  match auth with
  | none => throw (.unauthorized "Authorization header missing")
  | some user_data =>
    match user_data with
    | none => throw (.forbidden "Unauthorized")
    | some p =>
      match db.pay_requests.find? (fun r => r.id == request_id) with
      | none => throw (.notFound "Pay request not found")
      | some pay_req =>
        if pay_req.user_id != p.sub then
          throw (.forbidden "Unauthorized")
        if pay_req.status != "pending" then
          throw (.badRequest ("Request already " ++ pay_req.status))
        pure { db with pay_requests := db.pay_requests.map (fun r =>
          if r.id == request_id then
            { r with status := "rejected", responded_at := some now } else r) }

/-! ## Helper lemmas -/

@[simp] theorem exceptThrow_eq {α : Type} (e : ApiError) :
    (throw e : Except ApiError α) = Except.error e := rfl

@[simp] theorem exceptPure_eq {α : Type} (a : α) :
    (pure a : Except ApiError α) = Except.ok a := rfl

@[simp] theorem exceptErrorBind {α β : Type} (e : ApiError) (f : α → Except ApiError β) :
    (Except.error e >>= f) = Except.error e := rfl

@[simp] theorem exceptOkBind {α β : Type} (a : α) (f : α → Except ApiError β) :
    (Except.ok a >>= f) = f a := rfl

@[simp] theorem exceptMapError {α β : Type} (e : ApiError) (f : α → β) :
    (f <$> (Except.error e : Except ApiError α)) = Except.error e := rfl

@[simp] theorem exceptMapOk {α β : Type} (a : α) (f : α → β) :
    (f <$> (Except.ok a : Except ApiError α)) = Except.ok (f a) := rfl

/-- `find?` commutes with a map that does not change the predicate's value. -/
theorem find?_map_of_preserve {α : Type} (p : α → Bool) (f : α → α)
    (hp : ∀ a, p (f a) = p a) (l : List α) :
    (l.map f).find? p = (l.find? p).map f := by
  induction l with
  | nil => rfl
  | cons a t ih =>
    simp only [List.map_cons, List.find?_cons, hp]
    cases h : p a <;> simp [ih]

/-- Updating the balance of the link found for a pair leaves it the link the
pair's query finds, with the new balance (a balance write never changes the
key columns). -/
theorem findLink_update_balance (db : DB) (mid uid : String) (link : Link) (nb : Int)
    (h : findLink db mid uid = some link) :
    (db.links.map (fun l => if l.id == link.id then { l with balance := nb } else l)).find?
      (fun l => l.merchant_id == mid && l.user_id == uid) = some { link with balance := nb } := by
  rw [find?_map_of_preserve]
  · rw [show db.links.find? (fun l => l.merchant_id == mid && l.user_id == uid) = some link from h]
    simp
  · intro a
    by_cases ha : a.id == link.id <;> simp [ha]

/-- The pay-request variant: updating the balance of every link of a pair
leaves the pair's query returning the found link with the new balance. -/
theorem findLink_update_balance_pair (db : DB) (mid uid : String) (link : Link) (nb : Int)
    (h : findLink db mid uid = some link) :
    (db.links.map (fun l => if l.merchant_id == mid && l.user_id == uid then
        { l with balance := nb } else l)).find?
      (fun l => l.merchant_id == mid && l.user_id == uid) = some { link with balance := nb } := by
  have h2 : db.links.find? (fun l => l.merchant_id == mid && l.user_id == uid) = some link := h
  have hpl : (link.merchant_id == mid && link.user_id == uid) = true := by
    have h3 := List.find?_some h2
    simpa using h3
  rw [find?_map_of_preserve]
  · rw [h2]
    simp only [Option.map_some']
    rw [if_pos hpl]
  · intro a
    by_cases ha : (a.merchant_id == mid && a.user_id == uid) <;> simp [ha]

/-! ## The claims -/

/-- C1: with a correct PIN, a purchase of `a > 0` against balance `b` fails
with `InsufficientBalance` (HTTP 400) whenever `a > b` — and the error return
carries no state change — while an add-balance of `a > 0` always succeeds,
whatever the sign of `b`, and sets the balance to `b + a` (as the balance read
endpoint then reports). -/
theorem claim1_purchase_and_credit (db : DB) (auth : AuthHeader) (mid uid : String)
    (link : Link) (a : Int) (pin : String)
    (hfind : findLink db mid uid = some link)
    (hpin : verify_password pin link.pin = true)
    (hpos : 0 < a) :
    (link.balance < a →
      process_purchase db auth mid uid a pin = .error (.badRequest "Insufficient balance") ∧
      (ApiError.badRequest "Insufficient balance").statusCode = 400) ∧
    ∃ db2, add_balance db auth mid uid a pin = .ok (db2, link.balance + a) ∧
      get_balance db2 mid uid = .ok (link.balance + a) := by
  constructor
  · intro hlt
    refine ⟨?_, rfl⟩
    simp [process_purchase, hfind, hpin, hlt]
  · refine ⟨{ db with
        links := db.links.map (fun l =>
          if l.id == link.id then { l with balance := link.balance + a } else l)
        transactions := db.transactions ++ [{
          merchant_id := mid, user_id := uid, amount := a, transaction_type := "credit",
          balance_after := some (link.balance + a), store_name := none }] }, ?_, ?_⟩
    · simp [add_balance, hfind, hpin]
    · simp only [get_balance, findLink]
      rw [findLink_update_balance db mid uid link (link.balance + a) hfind]

/-- C2: with a PIN that does not verify against the stored hash, add-balance,
purchase and delink all fail with `InvalidPin` (HTTP 401); the error return
models the handler aborting before any write, so the link row is unchanged,
nothing is appended to the transaction table and the link is not deleted. -/
theorem claim2_wrong_pin_mutates_nothing (db : DB) (auth : AuthHeader) (mid uid : String)
    (link : Link) (a : Int) (pin : String)
    (hfind : findLink db mid uid = some link)
    (hpin : verify_password pin link.pin = false) :
    add_balance db auth mid uid a pin = .error (.unauthorized "Invalid PIN") ∧
    process_purchase db auth mid uid a pin = .error (.unauthorized "Invalid PIN") ∧
    delink_merchant db auth mid uid a pin = .error (.unauthorized "Invalid PIN") ∧
    (ApiError.unauthorized "Invalid PIN").statusCode = 401 := by
  refine ⟨?_, ?_, ?_, rfl⟩
  · simp [add_balance, hfind, hpin]
  · simp [process_purchase, hfind, hpin]
  · simp [delink_merchant, hfind, hpin]

/-- A concrete link used by the witnesses: balance 500, PIN `1234` stored
hashed in both the `pin` and `pin_hash` columns. -/
def linkBase : Link :=
  { id := 1, merchant_id := "M1", user_id := "U1", pin := hash_password "1234",
    pin_hash := some (hash_password "1234"), balance := 500, status := "active",
    store_name := some "Store", user_name := some "Uma" }

/-- A concrete database used by the witnesses: one merchant, one user, one
link. -/
def dbBase : DB :=
  { merchants := ["M1"], users := ["U1"], links := [linkBase], transactions := [],
    balance_requests := [], link_requests := [], pay_requests := [], next_id := 2 }

/-- Witness for C1 at `dbBase` with amount 600 against balance 500. -/
theorem claim1_witness :
    (findLink dbBase "M1" "U1" = some linkBase ∧
      verify_password "1234" linkBase.pin = true ∧ (0 : Int) < 600) ∧
    ((linkBase.balance < 600 →
      process_purchase dbBase none "M1" "U1" 600 "1234" =
        .error (.badRequest "Insufficient balance") ∧
      (ApiError.badRequest "Insufficient balance").statusCode = 400) ∧
    ∃ db2, add_balance dbBase none "M1" "U1" 600 "1234" = .ok (db2, linkBase.balance + 600) ∧
      get_balance db2 "M1" "U1" = .ok (linkBase.balance + 600)) :=
  ⟨⟨by decide, by decide, by decide⟩,
    claim1_purchase_and_credit dbBase none "M1" "U1" linkBase 600 "1234"
      (by decide) (by decide) (by decide)⟩

/-- Witness for C2 at `dbBase` with the wrong PIN `9999`. -/
theorem claim2_witness :
    (findLink dbBase "M1" "U1" = some linkBase ∧
      verify_password "9999" linkBase.pin = false) ∧
    (add_balance dbBase none "M1" "U1" 50 "9999" = .error (.unauthorized "Invalid PIN") ∧
    process_purchase dbBase none "M1" "U1" 50 "9999" = .error (.unauthorized "Invalid PIN") ∧
    delink_merchant dbBase none "M1" "U1" 50 "9999" = .error (.unauthorized "Invalid PIN") ∧
    (ApiError.unauthorized "Invalid PIN").statusCode = 401) :=
  ⟨⟨by decide, by decide⟩,
    claim2_wrong_pin_mutates_nothing dbBase none "M1" "U1" linkBase 50 "9999"
      (by decide) (by decide)⟩

/-- The empty-ledger database for the C8 round trip: the merchant and the
user exist, nothing else. -/
def db8 : DB :=
  { merchants := ["M1"], users := ["U1"], links := [], transactions := [],
    balance_requests := [], link_requests := [], pay_requests := [], next_id := 1 }

/-- The C8 scenario, run through the embedded handlers: create the link, read
the balance, add 100, purchase 40, read the balance again and list the pair's
transaction rows. -/
def c8_run : Except ApiError (Int × Int × List Txn) := do
  let r1 ← create_link db8 "M1" "U1" "1234"
  let b0 ← get_balance r1.1 "M1" "U1"
  let r2 ← add_balance r1.1 none "M1" "U1" 100 "1234"
  let r3 ← process_purchase r2.1 none "M1" "U1" 40 "1234"
  let b3 ← get_balance r3.1 "M1" "U1"
  pure (b0, b3, txnsFor r3.1 "M1" "U1")

/-- C8: starting with no link, create-link then read gives balance 0; after
add-balance(100) and purchase(40) with the correct PIN the balance reads 60
and exactly two transaction rows exist for the pair, with `balance_after` 100
and 60. -/
theorem claim8_round_trip : c8_run = .ok (0, 60,
    [{ merchant_id := "M1", user_id := "U1", amount := 100, transaction_type := "credit",
       balance_after := some 100, store_name := none },
     { merchant_id := "M1", user_id := "U1", amount := 40, transaction_type := "debit",
       balance_after := some 60, store_name := none }]) := by
  rfl

/-- C4: on a request (of any of the three kinds) whose status is no longer
`pending`, both accept and reject fail with HTTP 400 "already processed" and
— the error return modelling an abort before any write — change no state; so
a pending request resolves at most once and a second accept/reject fails.
For pay requests the call is taken from the request's owner with a valid
token, since those guards run first. -/
theorem claim4_second_resolution_fails (db : DB) (cm : ConnectionManager) (auth : AuthHeader)
    (q p : AuthPayload) (pin : String) (now : Nat)
    (rid1 : Nat) (r1 : BalReq)
    (h1 : db.balance_requests.find? (fun r => r.id == rid1) = some r1)
    (hs1 : r1.status ≠ "pending")
    (rid2 : Nat) (r2 : LinkReq)
    (h2 : db.link_requests.find? (fun r => r.id == rid2) = some r2)
    (hs2 : r2.status ≠ "pending")
    (rid3 : Nat) (r3 : PayReq)
    (h3 : db.pay_requests.find? (fun r => r.id == rid3) = some r3)
    (hs3 : r3.status ≠ "pending")
    (hown : r3.user_id = p.sub) :
    accept_balance_request db auth rid1 = .error (.badRequest "Request has already been processed") ∧
    reject_balance_request db auth rid1 = .error (.badRequest "Request has already been processed") ∧
    accept_link_request db (some (some q)) rid2 = .error (.badRequest "Request has already been processed") ∧
    reject_link_request db (some (some q)) rid2 = .error (.badRequest "Request has already been processed") ∧
    accept_pay_request db cm (some (some p)) rid3 pin now = .error (.badRequest ("Request already " ++ r3.status)) ∧
    reject_pay_request db (some (some p)) rid3 now = .error (.badRequest ("Request already " ++ r3.status)) ∧
    (∀ s, (ApiError.badRequest s).statusCode = 400) := by
  refine ⟨?_, ?_, ?_, ?_, ?_, ?_, fun s => rfl⟩
  · simp [accept_balance_request, h1, hs1]
  · simp [reject_balance_request, h1, hs1]
  · simp [accept_link_request, get_current_user, h2, hs2]
  · simp [reject_link_request, get_current_user, h2, hs2]
  · simp [accept_pay_request, h3, hs3, hown]
  · simp [reject_pay_request, h3, hs3, hown]

/-- Rows for the C4 witness database. -/
def balReq4 : BalReq :=
  { id := 1, merchant_id := "M1", user_id := "U1", amount := 100, pin := "1234", status := "accepted" }

def linkReq4 : LinkReq :=
  { id := 2, merchant_id := "M1", user_id := "U1", pin := "1234", status := "rejected" }

def payReq4 : PayReq :=
  { id := 3, merchant_id := "M1", user_id := "U1", amount := 50, description := none,
    status := "accepted", responded_at := some 5 }

/-- A database in which one request of each kind has already been resolved. -/
def db4 : DB :=
  { merchants := ["M1"], users := ["U1"], links := [], transactions := [],
    balance_requests := [balReq4], link_requests := [linkReq4], pay_requests := [payReq4],
    next_id := 4 }

/-- The empty connection manager. -/
def cmEmpty : ConnectionManager := { user_connections := [], merchant_connections := [] }

/-- Witness for C4 at `db4`. -/
theorem claim4_witness :
    (db4.balance_requests.find? (fun r => r.id == 1) = some balReq4 ∧ balReq4.status ≠ "pending" ∧
     db4.link_requests.find? (fun r => r.id == 2) = some linkReq4 ∧ linkReq4.status ≠ "pending" ∧
     db4.pay_requests.find? (fun r => r.id == 3) = some payReq4 ∧ payReq4.status ≠ "pending" ∧
     payReq4.user_id = (AuthPayload.mk "U1" "user").sub) ∧
    (accept_balance_request db4 none 1 = .error (.badRequest "Request has already been processed") ∧
    reject_balance_request db4 none 1 = .error (.badRequest "Request has already been processed") ∧
    accept_link_request db4 (some (some (AuthPayload.mk "U1" "user"))) 2 = .error (.badRequest "Request has already been processed") ∧
    reject_link_request db4 (some (some (AuthPayload.mk "U1" "user"))) 2 = .error (.badRequest "Request has already been processed") ∧
    accept_pay_request db4 cmEmpty (some (some (AuthPayload.mk "U1" "user"))) 3 "1234" 7 = .error (.badRequest ("Request already " ++ payReq4.status)) ∧
    reject_pay_request db4 (some (some (AuthPayload.mk "U1" "user"))) 3 7 = .error (.badRequest ("Request already " ++ payReq4.status)) ∧
    (∀ s, (ApiError.badRequest s).statusCode = 400)) :=
  ⟨⟨by decide, by decide, by decide, by decide, by decide, by decide, by decide⟩,
    claim4_second_resolution_fails db4 cmEmpty none (AuthPayload.mk "U1" "user")
      (AuthPayload.mk "U1" "user") "1234" 7 1 balReq4 (by decide) (by decide)
      2 linkReq4 (by decide) (by decide) 3 payReq4 (by decide) (by decide) (by decide)⟩

/-- C10: creating a pay request (by the authorized merchant) fails with HTTP
400 when the amount is not positive, with HTTP 404 when no active link
exists, and with an insufficient-balance HTTP 400 when the active link's
balance is below the amount; it succeeds — inserting one pending row —
exactly when an active link exists and its balance already covers the
amount. -/
theorem claim10_create_pay_guards (db : DB) (cm : ConnectionManager) (p : AuthPayload)
    (mid uid : String) (amount : Int) (description : Option String)
    (hsub : p.sub = mid) :
    (amount ≤ 0 →
      create_pay_request db cm (some (some p)) mid uid amount description =
        .error (.badRequest "Amount must be positive")) ∧
    (findActiveLink db mid uid = none → 0 < amount →
      create_pay_request db cm (some (some p)) mid uid amount description =
        .error (.notFound "Link not found or inactive")) ∧
    (∀ link, findActiveLink db mid uid = some link → 0 < amount → link.balance < amount →
      create_pay_request db cm (some (some p)) mid uid amount description =
        .error (.badRequest "Insufficient balance")) ∧
    (∀ link, findActiveLink db mid uid = some link → 0 < amount → amount ≤ link.balance →
      ∃ cm2 ev, create_pay_request db cm (some (some p)) mid uid amount description =
        .ok ({ db with
          pay_requests := db.pay_requests ++ [{
            id := db.next_id, merchant_id := mid, user_id := uid, amount := amount,
            description := description, status := "pending", responded_at := none }]
          next_id := db.next_id + 1 }, cm2, ev, db.next_id)) := by
  refine ⟨?_, ?_, ?_, ?_⟩
  · intro hle
    simp [create_pay_request, paySubGuard, hsub, hle]
  · intro hnone hpos
    simp [create_pay_request, paySubGuard, hsub, hnone, not_le.mpr hpos]
  · intro link hlink hpos hlt
    simp [create_pay_request, paySubGuard, hsub, hlink, not_le.mpr hpos, hlt]
  · intro link hlink hpos hge
    by_cases hc : is_user_connected cm uid
    · refine ⟨(broadcast_payment_request_to_user cm uid).1,
        (broadcast_payment_request_to_user cm uid).2, ?_⟩
      simp [create_pay_request, paySubGuard, hsub, hlink, not_le.mpr hpos, not_lt.mpr hge, hc]
    · refine ⟨cm, [], ?_⟩
      simp [create_pay_request, paySubGuard, hsub, hlink, not_le.mpr hpos, not_lt.mpr hge, hc]

/-- Witness for C10 at `dbBase`: amount 600 exceeds the balance 500 of the
active link, so creation fails insufficient; amount 200 is covered, so
creation succeeds. -/
theorem claim10_witness :
    ((AuthPayload.mk "M1" "merchant").sub = "M1") ∧
    create_pay_request dbBase cmEmpty (some (some (AuthPayload.mk "M1" "merchant"))) "M1" "U1" 600 none =
      .error (.badRequest "Insufficient balance") ∧
    ∃ cm2 ev, create_pay_request dbBase cmEmpty (some (some (AuthPayload.mk "M1" "merchant"))) "M1" "U1" 200 none =
      .ok ({ dbBase with
        pay_requests := dbBase.pay_requests ++ [{
          id := dbBase.next_id, merchant_id := "M1", user_id := "U1", amount := 200,
          description := none, status := "pending", responded_at := none }]
        next_id := dbBase.next_id + 1 }, cm2, ev, dbBase.next_id) :=
  ⟨rfl,
    (claim10_create_pay_guards dbBase cmEmpty (AuthPayload.mk "M1" "merchant") "M1" "U1" 600 none rfl).2.2.1
      linkBase (by decide) (by decide) (by decide),
    (claim10_create_pay_guards dbBase cmEmpty (AuthPayload.mk "M1" "merchant") "M1" "U1" 200 none rfl).2.2.2
      linkBase (by decide) (by decide) (by decide)⟩

/-- The number of pending pay requests of a pair. -/
def pendingPayCount (db : DB) (mid uid : String) : Nat :=
  (db.pay_requests.filter (fun r =>
    r.merchant_id == mid && r.user_id == uid && r.status == "pending")).length

/-- A pending pay request for the (M1, U1) pair. -/
def payReqPending : PayReq :=
  { id := 1, merchant_id := "M1", user_id := "U1", amount := 50, description := none,
    status := "pending", responded_at := none }

/-- `dbBase` with one pay request already pending for the pair. -/
def db3 : DB := { dbBase with pay_requests := [payReqPending], next_id := 3 }

/-- The second pending pay request that `create_pay_request` inserts on top
of `payReqPending`. -/
def payReqSecond : PayReq :=
  { id := 3, merchant_id := "M1", user_id := "U1", amount := 100, description := none,
    status := "pending", responded_at := none }

/-- Counterexample to C3: with a pending pay request already present for
(M1, U1), the merchant's second `create_pay_request` does not fail with
`DuplicatePending`; it succeeds and inserts a second pending row for the same
pair — `create_pay_request` has no duplicate-pending check. -/
theorem claim3_counterexample :
    pendingPayCount db3 "M1" "U1" = 1 ∧
    create_pay_request db3 cmEmpty (some (some (AuthPayload.mk "M1" "merchant"))) "M1" "U1" 100 none =
      .ok ({ db3 with pay_requests := [payReqPending, payReqSecond], next_id := 4 }, cmEmpty, [], 3) ∧
    pendingPayCount { db3 with pay_requests := [payReqPending, payReqSecond], next_id := 4 } "M1" "U1" = 2 :=
  ⟨rfl, rfl, rfl⟩

/-- C3 as amended: the single-pending-request invariant is enforced for link
requests and balance requests — creation with a pending request of the same
kind for the pair fails with HTTP 400 and inserts no row — but not for pay
requests: pay-request creation performs no duplicate-pending check, and an
otherwise-valid create while a pending pay request exists succeeds and adds a
second pending row for the pair. -/
theorem claim3_amended_single_pending (db : DB) :
    (∀ mid uid amount pin,
      db.merchants.contains mid = true → db.users.contains uid = true →
      (db.balance_requests.any fun r =>
        r.merchant_id == mid && r.user_id == uid && r.status == "pending") = true →
      create_balance_request db mid uid amount pin =
        .error (.badRequest "You already have a pending request with this merchant")) ∧
    (∀ (q : AuthPayload) mid uid pin,
      db.merchants.contains mid = true → db.users.contains uid = true →
      findLink db mid uid = none →
      (db.link_requests.any fun r =>
        r.merchant_id == mid && r.user_id == uid && r.status == "pending") = true →
      create_link_request db (some (some q)) mid uid pin =
        .error (.badRequest "You already have a pending link request with this merchant")) ∧
    (∀ (cm : ConnectionManager) (p : AuthPayload) mid uid amount description link,
      p.sub = mid → findActiveLink db mid uid = some link →
      0 < amount → amount ≤ link.balance →
      ∃ cm2 ev, create_pay_request db cm (some (some p)) mid uid amount description =
        .ok ({ db with
          pay_requests := db.pay_requests ++ [{
            id := db.next_id, merchant_id := mid, user_id := uid, amount := amount,
            description := description, status := "pending", responded_at := none }]
          next_id := db.next_id + 1 }, cm2, ev, db.next_id) ∧
        pendingPayCount { db with
          pay_requests := db.pay_requests ++ [{
            id := db.next_id, merchant_id := mid, user_id := uid, amount := amount,
            description := description, status := "pending", responded_at := none }]
          next_id := db.next_id + 1 } mid uid = pendingPayCount db mid uid + 1) := by
  refine ⟨?_, ?_, ?_⟩
  · intro mid uid amount pin hm hu hpend
    simp at hm hu
    simp [create_balance_request, hm, hu, hpend]
  · intro q mid uid pin hm hu hnolink hpend
    simp at hm hu
    simp [create_link_request, get_current_user, hm, hu, hnolink, hpend]
  · intro cm p mid uid amount description link hsub hlink hpos hge
    have hcount : pendingPayCount { db with
        pay_requests := db.pay_requests ++ [{
          id := db.next_id, merchant_id := mid, user_id := uid, amount := amount,
          description := description, status := "pending", responded_at := none }]
        next_id := db.next_id + 1 } mid uid = pendingPayCount db mid uid + 1 := by
      simp [pendingPayCount, List.filter_append]
    by_cases hc : is_user_connected cm uid
    · refine ⟨(broadcast_payment_request_to_user cm uid).1,
        (broadcast_payment_request_to_user cm uid).2, ?_, hcount⟩
      simp [create_pay_request, paySubGuard, hsub, hlink, not_le.mpr hpos, not_lt.mpr hge, hc]
    · refine ⟨cm, [], ?_, hcount⟩
      simp [create_pay_request, paySubGuard, hsub, hlink, not_le.mpr hpos, not_lt.mpr hge, hc]

/-- The pending balance request and pending link request used by the C3
witness (for a pair that has no link yet, so that link-request creation
reaches its duplicate check). -/
def balReqPend3 : BalReq :=
  { id := 1, merchant_id := "M2", user_id := "U1", amount := 100, pin := "1234", status := "pending" }

def linkReqPend3 : LinkReq :=
  { id := 2, merchant_id := "M2", user_id := "U1", pin := "1234", status := "pending" }

/-- Witness database for the amended C3: pair (M2, U1) has a pending balance
request and a pending link request and no link; pair (M1, U1) has the active
`linkBase` and a pending pay request. -/
def db3w : DB :=
  { merchants := ["M1", "M2"], users := ["U1"], links := [linkBase], transactions := [],
    balance_requests := [balReqPend3], link_requests := [linkReqPend3],
    pay_requests := [payReqPending], next_id := 3 }

/-- Witness for the amended C3 at `db3w`. -/
theorem claim3_amended_witness :
    (db3w.merchants.contains "M2" = true ∧ db3w.users.contains "U1" = true ∧
     (db3w.balance_requests.any fun r =>
        r.merchant_id == "M2" && r.user_id == "U1" && r.status == "pending") = true ∧
     findLink db3w "M2" "U1" = none ∧
     (db3w.link_requests.any fun r =>
        r.merchant_id == "M2" && r.user_id == "U1" && r.status == "pending") = true ∧
     (AuthPayload.mk "M1" "merchant").sub = "M1" ∧
     findActiveLink db3w "M1" "U1" = some linkBase ∧
     (0 : Int) < 100 ∧ (100 : Int) ≤ linkBase.balance) ∧
    (create_balance_request db3w "M2" "U1" 100 "1234" =
      .error (.badRequest "You already have a pending request with this merchant") ∧
    create_link_request db3w (some (some (AuthPayload.mk "U1" "user"))) "M2" "U1" "1234" =
      .error (.badRequest "You already have a pending link request with this merchant") ∧
    ∃ cm2 ev, create_pay_request db3w cmEmpty (some (some (AuthPayload.mk "M1" "merchant"))) "M1" "U1" 100 none =
      .ok ({ db3w with
        pay_requests := db3w.pay_requests ++ [{
          id := db3w.next_id, merchant_id := "M1", user_id := "U1", amount := 100,
          description := none, status := "pending", responded_at := none }]
        next_id := db3w.next_id + 1 }, cm2, ev, db3w.next_id) ∧
      pendingPayCount { db3w with
        pay_requests := db3w.pay_requests ++ [{
          id := db3w.next_id, merchant_id := "M1", user_id := "U1", amount := 100,
          description := none, status := "pending", responded_at := none }]
        next_id := db3w.next_id + 1 } "M1" "U1" = pendingPayCount db3w "M1" "U1" + 1) :=
  ⟨⟨by decide, by decide, by decide, by decide, by decide, by decide, by decide, by decide, by decide⟩,
    (claim3_amended_single_pending db3w).1 "M2" "U1" 100 "1234" (by decide) (by decide) (by decide),
    (claim3_amended_single_pending db3w).2.1 (AuthPayload.mk "U1" "user") "M2" "U1" "1234"
      (by decide) (by decide) (by decide) (by decide),
    (claim3_amended_single_pending db3w).2.2 cmEmpty (AuthPayload.mk "M1" "merchant") "M1" "U1"
      100 none linkBase (by decide) (by decide) (by decide) (by decide)⟩

/-- The C6 scenario: starting from `db8` (no link), the user files a balance
request with PIN `1234` and the merchant accepts it; the run returns the
`pin` column of the link this created. -/
def c6_run : Option String :=
  (do
    let r1 ← create_balance_request db8 "M1" "U1" 300 "1234"
    let r2 ← accept_balance_request r1.1 none r1.2
    pure r2.1).toOption.bind (fun db => (findLink db "M1" "U1").map Link.pin)

/-- Counterexample to C6: the link created by accepting a balance request
stores the caller-supplied plaintext PIN `1234` in its `pin` column, not a
hash of it (`create_balance_request` inserts the PIN verbatim into the
request row and `accept_balance_request` copies it verbatim into the new
link). -/
theorem claim6_counterexample :
    c6_run = some "1234" ∧ "1234" ≠ hash_password "1234" :=
  ⟨rfl, by decide⟩

/-- C6 as amended: direct link creation and link-request acceptance store the
bcrypt hash of the supplied PIN in the new link's `pin` column, but
balance-request acceptance, when it creates the link because none existed,
stores the request's PIN verbatim — the plaintext the user supplied when the
request was created. -/
theorem claim6_amended_pin_storage (db : DB) :
    (∀ mid uid pin,
      db.merchants.contains mid = true → db.users.contains uid = true →
      findLink db mid uid = none →
      ∃ db2, create_link db mid uid pin = .ok (db2, db.next_id) ∧
        (findLink db2 mid uid).map Link.pin = some (hash_password pin)) ∧
    (∀ (q : AuthPayload) rid rq,
      db.link_requests.find? (fun r => r.id == rid) = some rq →
      rq.status = "pending" →
      findLink db rq.merchant_id rq.user_id = none →
      ∃ db2, accept_link_request db (some (some q)) rid = .ok db2 ∧
        (findLink db2 rq.merchant_id rq.user_id).map Link.pin = some (hash_password rq.pin)) ∧
    (∀ rid rq,
      db.balance_requests.find? (fun r => r.id == rid) = some rq →
      rq.status = "pending" →
      findLink db rq.merchant_id rq.user_id = none →
      ∃ db2, accept_balance_request db none rid = .ok (db2, rq.amount) ∧
        (findLink db2 rq.merchant_id rq.user_id).map Link.pin = some rq.pin) := by
  refine ⟨?_, ?_, ?_⟩
  · intro mid uid pin hm hu hnolink
    simp at hm hu
    refine ⟨{ db with
        links := db.links ++ [{
          id := db.next_id, merchant_id := mid, user_id := uid, pin := hash_password pin,
          pin_hash := none, balance := 0, status := dbDefaultLinkStatus,
          store_name := none, user_name := none }]
        next_id := db.next_id + 1 }, ?_, ?_⟩
    · simp [create_link, hm, hu, hnolink]
    · simp only [findLink, List.find?_append]
      rw [show db.links.find? (fun l => l.merchant_id == mid && l.user_id == uid) = none from hnolink]
      simp
  · intro q rid rq hfind hpend hnolink
    refine ⟨{ db with
        links := db.links ++ [{
          id := db.next_id, merchant_id := rq.merchant_id, user_id := rq.user_id,
          pin := hash_password rq.pin, pin_hash := none, balance := 0,
          status := dbDefaultLinkStatus, store_name := none, user_name := none }]
        link_requests := db.link_requests.map (fun r =>
          if r.id == rid then { r with status := "accepted" } else r)
        next_id := db.next_id + 1 }, ?_, ?_⟩
    · simp [accept_link_request, get_current_user, hfind, hpend, hnolink]
    · simp only [findLink, List.find?_append]
      rw [show db.links.find? (fun l => l.merchant_id == rq.merchant_id && l.user_id == rq.user_id) = none from hnolink]
      simp
  · intro rid rq hfind hpend hnolink
    refine ⟨{ db with
        links := db.links ++ [{
          id := db.next_id, merchant_id := rq.merchant_id, user_id := rq.user_id,
          pin := rq.pin, pin_hash := none, balance := rq.amount,
          status := dbDefaultLinkStatus, store_name := none, user_name := none }]
        transactions := db.transactions ++ [{
          merchant_id := rq.merchant_id, user_id := rq.user_id, amount := rq.amount,
          transaction_type := "credit", balance_after := some rq.amount, store_name := none }]
        balance_requests := db.balance_requests.map (fun r =>
          if r.id == rid then { r with status := "accepted" } else r)
        next_id := db.next_id + 1 }, ?_, ?_⟩
    · simp [accept_balance_request, hfind, hpend, hnolink]
    · simp only [findLink, List.find?_append]
      rw [show db.links.find? (fun l => l.merchant_id == rq.merchant_id && l.user_id == rq.user_id) = none from hnolink]
      simp

/-- Witness for the amended C6 at `db3w` (pair (M2, U1) has no link, one
pending link request with id 2 and one pending balance request with id 1). -/
theorem claim6_amended_witness :
    (db3w.merchants.contains "M2" = true ∧ db3w.users.contains "U1" = true ∧
     findLink db3w "M2" "U1" = none ∧
     db3w.link_requests.find? (fun r => r.id == 2) = some linkReqPend3 ∧
     linkReqPend3.status = "pending" ∧
     db3w.balance_requests.find? (fun r => r.id == 1) = some balReqPend3 ∧
     balReqPend3.status = "pending") ∧
    ((∃ db2, create_link db3w "M2" "U1" "4321" = .ok (db2, db3w.next_id) ∧
       (findLink db2 "M2" "U1").map Link.pin = some (hash_password "4321")) ∧
     (∃ db2, accept_link_request db3w (some (some (AuthPayload.mk "U1" "user"))) 2 = .ok db2 ∧
       (findLink db2 linkReqPend3.merchant_id linkReqPend3.user_id).map Link.pin =
         some (hash_password linkReqPend3.pin)) ∧
     (∃ db2, accept_balance_request db3w none 1 = .ok (db2, balReqPend3.amount) ∧
       (findLink db2 balReqPend3.merchant_id balReqPend3.user_id).map Link.pin =
         some balReqPend3.pin)) :=
  ⟨⟨by decide, by decide, by decide, by decide, by decide, by decide, by decide⟩,
    (claim6_amended_pin_storage db3w).1 "M2" "U1" "4321" (by decide) (by decide) (by decide),
    (claim6_amended_pin_storage db3w).2.1 (AuthPayload.mk "U1" "user") 2 linkReqPend3
      (by decide) (by decide) (by decide),
    (claim6_amended_pin_storage db3w).2.2 1 balReqPend3 (by decide) (by decide) (by decide)⟩

/-- A pending pay request of amount 200 against `linkBase` (balance 500). -/
def payReq7 : PayReq :=
  { id := 1, merchant_id := "M1", user_id := "U1", amount := 200,
    description := some "coffee", status := "pending", responded_at := none }

/-- The C7 database: `linkBase` plus the pending pay request. -/
def db7 : DB :=
  { merchants := ["M1"], users := ["U1"], links := [linkBase], transactions := [],
    balance_requests := [], link_requests := [], pay_requests := [payReq7], next_id := 2 }

/-- A manager on which merchant M1 is connected with one healthy channel. -/
def cm7 : ConnectionManager :=
  { user_connections := [], merchant_connections := [("M1", [{ id := 10, ok := true }])] }

/-- The purchase transaction row `accept_pay_request` actually inserts: it
has `store_name` but no `balance_after` column. -/
def txn7 : Txn :=
  { merchant_id := "M1", user_id := "U1", amount := 200, transaction_type := "purchase",
    balance_after := none, store_name := some "Store" }

/-- `db7` after the acceptance: balance debited to 300, request accepted with
`responded_at` recorded, one purchase transaction appended. -/
def db7After : DB :=
  { db7 with
    links := [{ linkBase with balance := 300 }]
    pay_requests := [{ payReq7 with status := "accepted", responded_at := some 99 }]
    transactions := [txn7] }

/-- C7, evaluated at the failing input (pending request of amount 200,
balance 500, correct PIN, owner's token): the acceptance debits the link to
300, marks the request accepted with `responded_at` set, appends exactly one
`purchase` transaction and notifies the connected merchant with
`payment_received` (nothing is delivered when the merchant is not connected)
— but the inserted transaction row carries NO `balance_after` value
(`balance_after = none`), where the claim and the repository's own data model
(`models.py` requires `balance_after`, and every other transaction writer
sets it) demand `balance_after = 300`. -/
theorem claim7_accept_pay_evaluation :
    accept_pay_request db7 cm7 (some (some (AuthPayload.mk "U1" "user"))) 1 "1234" 99 =
      .ok (db7After, cm7, [(10, "payment_received")], 300) ∧
    accept_pay_request db7 cmEmpty (some (some (AuthPayload.mk "U1" "user"))) 1 "1234" 99 =
      .ok (db7After, cmEmpty, [], 300) ∧
    txnsFor db7After "M1" "U1" = [txn7] ∧
    txn7.balance_after = none :=
  ⟨rfl, rfl, rfl, rfl⟩

/-- `dbBase` after an add-balance of 100: balance 600 and a credit row. -/
def dbBaseCredited : DB :=
  { dbBase with
    links := [{ linkBase with balance := 600 }]
    transactions := [{
      merchant_id := "M1", user_id := "U1", amount := 100, transaction_type := "credit",
      balance_after := some 600, store_name := none }] }

/-- Counterexample to C5: `add_balance` succeeds and mutates the balance for
a caller whose token subject is neither the merchant nor the user — and even
for a caller with no token at all — because the handler declares no
authorization dependency; the claim says every such call must be rejected
without mutation. -/
theorem claim5_counterexample :
    (AuthPayload.mk "INTRUDER" "merchant").sub ≠ "M1" ∧
    (AuthPayload.mk "INTRUDER" "merchant").sub ≠ "U1" ∧
    add_balance dbBase (some (some (AuthPayload.mk "INTRUDER" "merchant"))) "M1" "U1" 100 "1234" =
      .ok (dbBaseCredited, 600) ∧
    add_balance dbBase none "M1" "U1" 100 "1234" = .ok (dbBaseCredited, 600) :=
  ⟨by decide, by decide, rfl, rfl⟩

/-- C5 as amended: only the pay-request endpoints enforce subject equality —
create rejects a token whose `sub` differs from the merchant id, and
accept/reject reject a token whose `sub` differs from the request's user id,
with HTTP 403 and no mutation.  The link-request endpoints demand a valid
token (HTTP 401 otherwise) but never compare its subject.  Add-balance,
purchase, delink and balance-request accept/reject perform no token check at
all: their result is identical for every value of the `Authorization`
header. -/
theorem claim5_amended_auth :
    (∀ (db : DB) (cm : ConnectionManager) (p : AuthPayload) mid uid amount description,
      p.sub ≠ mid →
      create_pay_request db cm (some (some p)) mid uid amount description =
        .error (.forbidden "Unauthorized")) ∧
    (∀ (db : DB) (cm : ConnectionManager) (p : AuthPayload) rid req pin now,
      db.pay_requests.find? (fun r => r.id == rid) = some req → req.user_id ≠ p.sub →
      accept_pay_request db cm (some (some p)) rid pin now = .error (.forbidden "Unauthorized")) ∧
    (∀ (db : DB) (p : AuthPayload) rid req now,
      db.pay_requests.find? (fun r => r.id == rid) = some req → req.user_id ≠ p.sub →
      reject_pay_request db (some (some p)) rid now = .error (.forbidden "Unauthorized")) ∧
    (∀ (db : DB) rid,
      accept_link_request db none rid = .error (.unauthorized "Authorization header missing") ∧
      accept_link_request db (some none) rid = .error (.unauthorized "Invalid or expired token")) ∧
    (∀ (db : DB) mid uid pin,
      create_link_request db none mid uid pin = .error (.unauthorized "Authorization header missing") ∧
      create_link_request db (some none) mid uid pin = .error (.unauthorized "Invalid or expired token")) ∧
    (∀ (db : DB) rid,
      reject_link_request db none rid = .error (.unauthorized "Authorization header missing") ∧
      reject_link_request db (some none) rid = .error (.unauthorized "Invalid or expired token")) ∧
    (∀ (db : DB) (q q2 : AuthPayload) mid uid pin rid,
      accept_link_request db (some (some q)) rid = accept_link_request db (some (some q2)) rid ∧
      create_link_request db (some (some q)) mid uid pin =
        create_link_request db (some (some q2)) mid uid pin ∧
      reject_link_request db (some (some q)) rid = reject_link_request db (some (some q2)) rid) ∧
    (∀ (db : DB) (a1 a2 : AuthHeader) mid uid amount pin,
      add_balance db a1 mid uid amount pin = add_balance db a2 mid uid amount pin ∧
      process_purchase db a1 mid uid amount pin = process_purchase db a2 mid uid amount pin ∧
      delink_merchant db a1 mid uid amount pin = delink_merchant db a2 mid uid amount pin) ∧
    (∀ (db : DB) (a1 a2 : AuthHeader) rid,
      accept_balance_request db a1 rid = accept_balance_request db a2 rid ∧
      reject_balance_request db a1 rid = reject_balance_request db a2 rid) := by
  refine ⟨?_, ?_, ?_, fun db rid => ⟨rfl, rfl⟩, fun db mid uid pin => ⟨rfl, rfl⟩,
    fun db rid => ⟨rfl, rfl⟩,
    fun db q q2 mid uid pin rid => ⟨rfl, rfl, rfl⟩,
    fun db a1 a2 mid uid amount pin => ⟨rfl, rfl, rfl⟩,
    fun db a1 a2 rid => ⟨rfl, rfl⟩⟩
  · intro db cm p mid uid amount description hsub
    simp [create_pay_request, paySubGuard, hsub]
  · intro db cm p rid req pin now hfind hsub
    simp [accept_pay_request, hfind, hsub]
  · intro db p rid req now hfind hsub
    simp [reject_pay_request, hfind, hsub]

/-- Witness for the amended C5 at concrete inputs built on `db7`. -/
theorem claim5_amended_witness :
    ((AuthPayload.mk "U9" "user").sub ≠ "M1" ∧
     db7.pay_requests.find? (fun r => r.id == 1) = some payReq7 ∧
     payReq7.user_id ≠ (AuthPayload.mk "U9" "user").sub) ∧
    (create_pay_request db7 cmEmpty (some (some (AuthPayload.mk "U9" "user"))) "M1" "U1" 10 none =
      .error (.forbidden "Unauthorized") ∧
    accept_pay_request db7 cmEmpty (some (some (AuthPayload.mk "U9" "user"))) 1 "1234" 7 =
      .error (.forbidden "Unauthorized") ∧
    reject_pay_request db7 (some (some (AuthPayload.mk "U9" "user"))) 1 7 =
      .error (.forbidden "Unauthorized") ∧
    (accept_link_request db7 none 1 = .error (.unauthorized "Authorization header missing") ∧
     accept_link_request db7 (some none) 1 = .error (.unauthorized "Invalid or expired token")) ∧
    (create_link_request db7 none "M1" "U1" "1234" =
       .error (.unauthorized "Authorization header missing") ∧
     create_link_request db7 (some none) "M1" "U1" "1234" =
       .error (.unauthorized "Invalid or expired token")) ∧
    (reject_link_request db7 none 1 = .error (.unauthorized "Authorization header missing") ∧
     reject_link_request db7 (some none) 1 = .error (.unauthorized "Invalid or expired token")) ∧
    (accept_link_request db7 (some (some (AuthPayload.mk "A" "user"))) 1 =
       accept_link_request db7 (some (some (AuthPayload.mk "B" "merchant"))) 1 ∧
     create_link_request db7 (some (some (AuthPayload.mk "A" "user"))) "M1" "U1" "1234" =
       create_link_request db7 (some (some (AuthPayload.mk "B" "merchant"))) "M1" "U1" "1234" ∧
     reject_link_request db7 (some (some (AuthPayload.mk "A" "user"))) 1 =
       reject_link_request db7 (some (some (AuthPayload.mk "B" "merchant"))) 1) ∧
    add_balance db7 (some (some (AuthPayload.mk "A" "user"))) "M1" "U1" 5 "1234" =
      add_balance db7 none "M1" "U1" 5 "1234" ∧
    accept_balance_request db7 (some (some (AuthPayload.mk "A" "user"))) 1 =
      accept_balance_request db7 none 1) :=
  ⟨⟨by decide, by decide, by decide⟩,
    claim5_amended_auth.1 db7 cmEmpty (AuthPayload.mk "U9" "user") "M1" "U1" 10 none (by decide),
    claim5_amended_auth.2.1 db7 cmEmpty (AuthPayload.mk "U9" "user") 1 payReq7 "1234" 7
      (by decide) (by decide),
    claim5_amended_auth.2.2.1 db7 (AuthPayload.mk "U9" "user") 1 payReq7 7 (by decide) (by decide),
    claim5_amended_auth.2.2.2.1 db7 1,
    claim5_amended_auth.2.2.2.2.1 db7 "M1" "U1" "1234",
    claim5_amended_auth.2.2.2.2.2.1 db7 1,
    claim5_amended_auth.2.2.2.2.2.2.1 db7 (AuthPayload.mk "A" "user") (AuthPayload.mk "B" "merchant")
      "M1" "U1" "1234" 1,
    (claim5_amended_auth.2.2.2.2.2.2.2.1 db7 (some (some (AuthPayload.mk "A" "user"))) none
      "M1" "U1" 5 "1234").1,
    (claim5_amended_auth.2.2.2.2.2.2.2.2 db7 (some (some (AuthPayload.mk "A" "user"))) none 1).1⟩

/-! ### Fanout lemmas for C9 -/

/-- One disconnect step, viewed on the channel list of the affected identity:
`none` stands for "the key is (or has just been) deleted". -/
def evictStep : Option (List WebSocket) → Nat → Option (List WebSocket)
  | none, _ => none
  | some chs, wid =>
    match removeFirstById chs wid with
    | none => some chs
    | some chs2 => if chs2.isEmpty then none else some chs2

@[simp] theorem lookupConns_nil (k : String) : lookupConns [] k = none := rfl

@[simp] theorem lookupConns_cons (kv : String × List WebSocket) (rest : Conns) (k : String) :
    lookupConns (kv :: rest) k = if kv.1 == k then some kv.2 else lookupConns rest k := by
  by_cases h : kv.1 == k <;> simp [lookupConns, List.find?_cons, h]

theorem lookupConns_set (e : Conns) (k : String) (v w : List WebSocket)
    (h : lookupConns e k = some w) : lookupConns (setConns e k v) k = some v := by
  induction e with
  | nil => simp at h
  | cons kv rest ih =>
    by_cases hk : kv.1 == k
    · simp [setConns, hk]
    · simp [setConns, hk] at h ⊢
      exact ih h

theorem lookupConns_erase (e : Conns) (k : String) :
    lookupConns (e.filter (fun kv => kv.1 != k)) k = none := by
  induction e with
  | nil => rfl
  | cons kv rest ih =>
    by_cases h : kv.1 = k
    · simpa [List.filter_cons, h] using ih
    · simpa [List.filter_cons, h] using ih

theorem dropConn_lookup (e : Conns) (k : String) (wid : Nat) :
    lookupConns (dropConn e k wid) k = evictStep (lookupConns e k) wid := by
  cases h : lookupConns e k with
  | none => simp [dropConn, evictStep, h]
  | some chs =>
    cases h2 : removeFirstById chs wid with
    | none => simp [dropConn, evictStep, h, h2]
    | some chs2 =>
      by_cases h3 : chs2.isEmpty
      · simp [dropConn, evictStep, h, h2, h3, lookupConns_erase]
      · simp [dropConn, evictStep, h, h2, h3, lookupConns_set e k chs2 chs h]

theorem dropConn_absent (e : Conns) (k : String) (wid : Nat)
    (h : lookupConns e k = none) : dropConn e k wid = e := by
  simp [dropConn, h]

theorem foldl_dropConn_absent (ws : List WebSocket) (e : Conns) (k : String)
    (h : lookupConns e k = none) :
    ws.foldl (fun acc w => dropConn acc k w.id) e = e := by
  induction ws with
  | nil => rfl
  | cons w t ih => simp only [List.foldl_cons, dropConn_absent e k w.id h, ih]

theorem foldl_evictStep_none (ws : List WebSocket) :
    ws.foldl (fun o w => evictStep o w.id) none = none := by
  induction ws with
  | nil => rfl
  | cons w t ih => simpa only [List.foldl_cons, evictStep] using ih

/-- The manager-level disconnect fold, tracked on the affected key's channel
list. -/
theorem foldl_dropConn_lookup (ws : List WebSocket) :
    ∀ (e : Conns) (k : String) (chs : List WebSocket), lookupConns e k = some chs →
    lookupConns (ws.foldl (fun acc w => dropConn acc k w.id) e) k =
      ws.foldl (fun o w => evictStep o w.id) (some chs) := by
  induction ws with
  | nil => intro e k chs h; simpa using h
  | cons w t ih =>
    intro e k chs h
    simp only [List.foldl_cons]
    have hstep : lookupConns (dropConn e k w.id) k = evictStep (some chs) w.id := by
      rw [dropConn_lookup, h]
    cases h2 : evictStep (some chs) w.id with
    | none =>
      rw [h2] at hstep
      rw [foldl_dropConn_absent t _ k hstep, hstep, foldl_evictStep_none]
    | some chs3 =>
      rw [h2] at hstep
      rw [ih _ k chs3 hstep]

theorem removeFirstById_eq_none_iff (chs : List WebSocket) (wid : Nat) :
    removeFirstById chs wid = none ↔ ∀ w ∈ chs, w.id ≠ wid := by
  induction chs with
  | nil => simp [removeFirstById]
  | cons c t ih =>
    by_cases h : c.id = wid
    · simp [removeFirstById, h]
    · simp [removeFirstById, h, ih]

/-- With pairwise-distinct channel ids, removing the first channel with a
present id is the same as filtering that id out. -/
theorem removeFirstById_nodup (chs : List WebSocket) (wid : Nat)
    (hnd : (chs.map WebSocket.id).Nodup) (hmem : ∃ w ∈ chs, w.id = wid) :
    removeFirstById chs wid = some (chs.filter (fun w => w.id != wid)) := by
  induction chs with
  | nil => simp at hmem
  | cons c t ih =>
    simp only [List.map_cons, List.nodup_cons] at hnd
    by_cases h : c.id = wid
    · have hkeep : ∀ w ∈ t, (w.id != wid) = true := by
        intro w hw
        have hne : w.id ≠ wid := by
          intro he
          exact hnd.1 (by
            rw [h, ← he]
            exact List.mem_map_of_mem WebSocket.id hw)
        simpa using hne
      simp [removeFirstById, h, List.filter_cons, List.filter_eq_self.mpr hkeep]
    · obtain ⟨w, hw, hwid⟩ := hmem
      rcases List.mem_cons.mp hw with rfl | hwt
      · exact absurd hwid h
      · have := ih hnd.2 ⟨w, hwt, hwid⟩
        simp [removeFirstById, h, this, List.filter_cons]

/-- Folding the evictions of a duplicate-free batch of failed channels (all
present in the list) removes exactly those channels, deleting the key when —
and only when — a nonempty batch empties the list. -/
theorem foldl_evictStep_spec (failed : List WebSocket) :
    ∀ (chs : List WebSocket),
    (chs.map WebSocket.id).Nodup →
    (failed.map WebSocket.id).Nodup →
    (∀ f ∈ failed, ∃ w ∈ chs, w.id = f.id) →
    failed.foldl (fun o w => evictStep o w.id) (some chs) =
      (if chs.filter (fun w => !((failed.map WebSocket.id).contains w.id)) = [] ∧ failed ≠ []
       then none
       else some (chs.filter (fun w => !((failed.map WebSocket.id).contains w.id)))) := by
  induction failed with
  | nil =>
    intro chs hnd hfnd hsub
    simp
  | cons f fs ih =>
    intro chs hnd hfnd hsub
    simp only [List.map_cons, List.nodup_cons] at hfnd
    have hmem : ∃ w ∈ chs, w.id = f.id := hsub f (List.mem_cons_self f fs)
    have hrm := removeFirstById_nodup chs f.id hnd hmem
    simp only [List.foldl_cons]
    by_cases hempty : chs.filter (fun w => w.id != f.id) = []
    · have hall : ∀ w ∈ chs, w.id = f.id := by
        intro w hw
        have h2 := List.filter_eq_nil_iff.mp hempty w hw
        simpa using h2
      have hr : chs.filter (fun w => !(((f :: fs).map WebSocket.id).contains w.id)) = [] := by
        apply List.filter_eq_nil_iff.mpr
        intro w hw
        simp [hall w hw]
      have hstep : evictStep (some chs) f.id = none := by
        simp [evictStep, hrm, hempty]
      rw [hstep, foldl_evictStep_none, if_pos ⟨hr, by simp⟩]
    · have hstep : evictStep (some chs) f.id = some (chs.filter (fun w => w.id != f.id)) := by
        simp [evictStep, hrm, hempty]
      have hnd1 : ((chs.filter (fun w => w.id != f.id)).map WebSocket.id).Nodup :=
        ((chs.filter_sublist (p := fun w => w.id != f.id)).map WebSocket.id).nodup hnd
      have hsub1 : ∀ g ∈ fs, ∃ w ∈ chs.filter (fun w => w.id != f.id), w.id = g.id := by
        intro g hg
        obtain ⟨w, hw, hwid⟩ := hsub g (List.mem_cons_of_mem f hg)
        refine ⟨w, List.mem_filter.mpr ⟨hw, ?_⟩, hwid⟩
        have hne : w.id ≠ f.id := by
          intro he
          exact hfnd.1 (by
            rw [← he, hwid]
            exact List.mem_map_of_mem WebSocket.id hg)
        simpa using hne
      rw [hstep, ih (chs.filter (fun w => w.id != f.id)) hnd1 hfnd.2 hsub1]
      have hr1r : (chs.filter (fun w => w.id != f.id)).filter
            (fun w => !((fs.map WebSocket.id).contains w.id)) =
          chs.filter (fun w => !(((f :: fs).map WebSocket.id).contains w.id)) := by
        rw [List.filter_filter]
        refine List.filter_congr ?_
        intro w hw
        by_cases hb : w.id = f.id <;> by_cases hc : w.id ∈ fs.map WebSocket.id <;>
          simp [hb, hc]
      rw [hr1r]
      by_cases hfs : fs = []
      · subst hfs
        have hcr : chs.filter (fun w => !(((f :: ([] : List WebSocket)).map WebSocket.id).contains w.id)) =
            chs.filter (fun w => w.id != f.id) := by
          rw [← hr1r]
          simp
        rw [hcr]
        simp [hempty]
      · simp [hfs]

/-- The send loop on one dictionary: an absent identity means a silent drop
with no state change; a present identity receives the message on exactly its
healthy channels, and afterwards the identity's entry holds exactly the
healthy channels — deleted entirely when a nonempty channel set had no
healthy channel left. -/
theorem sendCore_spec (e : Conns) (k : String) (msg : String) :
    (lookupConns e k = none → sendCore e k msg = (e, [])) ∧
    (∀ chs, lookupConns e k = some chs → (chs.map WebSocket.id).Nodup →
      (sendCore e k msg).2 = (chs.filter (fun w => w.ok)).map (fun w => (w.id, msg)) ∧
      lookupConns (sendCore e k msg).1 k =
        (if chs ≠ [] ∧ chs.filter (fun w => w.ok) = [] then none
         else some (chs.filter (fun w => w.ok)))) := by
  constructor
  · intro h
    simp [sendCore, h]
  · intro chs h hnd
    refine ⟨by simp [sendCore, h], ?_⟩
    have hfnd : ((chs.filter (fun w => !w.ok)).map WebSocket.id).Nodup :=
      ((chs.filter_sublist (p := fun w => !w.ok)).map WebSocket.id).nodup hnd
    have hsub : ∀ f ∈ chs.filter (fun w => !w.ok), ∃ w ∈ chs, w.id = f.id := by
      intro f hf
      exact ⟨f, (List.mem_filter.mp hf).1, rfl⟩
    have h1 : (sendCore e k msg).1 =
        (chs.filter (fun w => !w.ok)).foldl (fun acc w => dropConn acc k w.id) e := by
      simp [sendCore, h]
    rw [h1, foldl_dropConn_lookup (chs.filter (fun w => !w.ok)) e k chs h,
      foldl_evictStep_spec (chs.filter (fun w => !w.ok)) chs hnd hfnd hsub]
    have hinj := List.inj_on_of_nodup_map hnd
    have hfilter : chs.filter
          (fun w => !(((chs.filter (fun x => !x.ok)).map WebSocket.id).contains w.id)) =
        chs.filter (fun w => w.ok) := by
      refine List.filter_congr ?_
      intro w hw
      cases hok : w.ok with
      | true =>
        have hnotin : w.id ∉ (chs.filter (fun x => !x.ok)).map WebSocket.id := by
          intro hmem
          simp only [List.mem_map, List.mem_filter] at hmem
          obtain ⟨f, ⟨hf1, hf2⟩, hf3⟩ := hmem
          have hfw := hinj hf1 hw hf3
          rw [hfw] at hf2
          simp [hok] at hf2
        simp [hnotin]
      | false =>
        have hin : w.id ∈ (chs.filter (fun x => !x.ok)).map WebSocket.id :=
          List.mem_map_of_mem WebSocket.id (List.mem_filter.mpr ⟨hw, by simp [hok]⟩)
        simp [hin]
    rw [hfilter]
    by_cases hok0 : chs.filter (fun w => w.ok) = []
    · by_cases hchs : chs = []
      · subst hchs
        simp
      · have hallbad : ∀ w ∈ chs, ¬ (w.ok = true) := List.filter_eq_nil_iff.mp hok0
        have hfail : chs.filter (fun w => !w.ok) = chs :=
          List.filter_eq_self.mpr (fun w hw => by simp [hallbad w hw])
        simp [hok0, hchs, hfail]
    · simp [hok0]

/-- C9: a fanout send is total (it returns normally to the caller in every
case, by construction of the embedding): with zero registered channels the
message is silently dropped and the manager is unchanged; with channels
present (pairwise-distinct channel ids, as `connect` registers distinct
sockets), delivery reaches exactly the channels whose send succeeds, and
every failed channel is evicted from the identity's set — the identity's key
being garbage-collected when nothing is left — while delivery continues to
the remaining channels.  Stated for `send_to_user` and `send_to_merchant`,
whose bodies are the same loop on the two dictionaries. -/
theorem claim9_fanout_best_effort (m : ConnectionManager) (uid mid msg : String) :
    (lookupConns m.user_connections uid = none → send_to_user m uid msg = (m, [])) ∧
    (∀ chs, lookupConns m.user_connections uid = some chs → (chs.map WebSocket.id).Nodup →
      (send_to_user m uid msg).2 = (chs.filter (fun w => w.ok)).map (fun w => (w.id, msg)) ∧
      lookupConns (send_to_user m uid msg).1.user_connections uid =
        (if chs ≠ [] ∧ chs.filter (fun w => w.ok) = [] then none
         else some (chs.filter (fun w => w.ok)))) ∧
    (lookupConns m.merchant_connections mid = none → send_to_merchant m mid msg = (m, [])) ∧
    (∀ chs, lookupConns m.merchant_connections mid = some chs → (chs.map WebSocket.id).Nodup →
      (send_to_merchant m mid msg).2 = (chs.filter (fun w => w.ok)).map (fun w => (w.id, msg)) ∧
      lookupConns (send_to_merchant m mid msg).1.merchant_connections mid =
        (if chs ≠ [] ∧ chs.filter (fun w => w.ok) = [] then none
         else some (chs.filter (fun w => w.ok)))) := by
  refine ⟨?_, ?_, ?_, ?_⟩
  · intro h
    have h2 := (sendCore_spec m.user_connections uid msg).1 h
    simp [send_to_user, h2]
  · intro chs h hnd
    have h2 := (sendCore_spec m.user_connections uid msg).2 chs h hnd
    exact ⟨h2.1, h2.2⟩
  · intro h
    have h2 := (sendCore_spec m.merchant_connections mid msg).1 h
    simp [send_to_merchant, h2]
  · intro chs h hnd
    have h2 := (sendCore_spec m.merchant_connections mid msg).2 chs h hnd
    exact ⟨h2.1, h2.2⟩

/-- Channel list for the C9 witness: two healthy channels around one broken
one. -/
def chs9 : List WebSocket := [{ id := 1, ok := true }, { id := 2, ok := false }, { id := 3, ok := true }]

/-- Manager for the C9 witness. -/
def m9 : ConnectionManager := { user_connections := [("U1", chs9)], merchant_connections := [] }

/-- Witness for C9 at `m9`: a send to the unknown identity U2 (and to the
merchant side) is dropped without state change, and a send to U1 delivers to
channels 1 and 3 while evicting the failed channel 2. -/
theorem claim9_witness :
    (lookupConns m9.user_connections "U2" = none ∧
     lookupConns m9.user_connections "U1" = some chs9 ∧
     (chs9.map WebSocket.id).Nodup ∧
     lookupConns m9.merchant_connections "M1" = none) ∧
    (send_to_user m9 "U2" "balance_updated" = (m9, []) ∧
     (send_to_user m9 "U1" "balance_updated").2 =
       (chs9.filter (fun w => w.ok)).map (fun w => (w.id, "balance_updated")) ∧
     lookupConns (send_to_user m9 "U1" "balance_updated").1.user_connections "U1" =
       (if chs9 ≠ [] ∧ chs9.filter (fun w => w.ok) = [] then none
        else some (chs9.filter (fun w => w.ok))) ∧
     send_to_merchant m9 "M1" "payment_received" = (m9, [])) :=
  ⟨⟨by decide, by decide, by decide, by decide⟩,
    (claim9_fanout_best_effort m9 "U2" "M1" "balance_updated").1 (by decide),
    ((claim9_fanout_best_effort m9 "U1" "M1" "balance_updated").2.1 chs9 (by decide) (by decide)).1,
    ((claim9_fanout_best_effort m9 "U1" "M1" "balance_updated").2.1 chs9 (by decide) (by decide)).2,
    (claim9_fanout_best_effort m9 "U1" "M1" "payment_received").2.2.1 (by decide)⟩

end MEWallet
